import Mathlib

/-!
# systemdgen: a verification development

Shallow embedding of `main.go` (package `main` of `abiiranathan/systemdgen`).

Modelling conventions.

* Go `string` values are modelled by Lean `String`; all scanning functions
  work on the character list `String.data`.  The only separators the program
  looks for (`" "`, the template delimiters) are ASCII, so scanning characters
  and scanning bytes agree.
* The process is modelled by the list of effects it performs (`Effect`) and
  the way it ends (`Ending`): a function either returns a value or calls
  `os.Exit` with a status.
* Everything the operating system decides (path lookup, the outcome of the
  file write, the outcome and output of each subprocess) is a field of `Env`
  and is universally quantified in the theorems.
* `text/template` is modelled for the fragment the program uses: literal text
  and field actions written between double braces, rendered with `fmt.Fprint`.
-/

namespace Systemdgen

/-! ## Process model -/

/-- Observable effects of the process, in the order they are performed. -/
inductive Effect where
  /-- Text written to standard output (`fmt.Println`, `fmt.Printf`). -/
  | stdout (text : String)
  /-- A call `exec.LookPath file`. -/
  | lookPath (file : String)
  /-- A call `os.WriteFile name data perm`. -/
  | writeFile (name : String) (data : String) (perm : Nat)
  /-- A subprocess started through `exec.Command argv[0] argv[1:]...`. -/
  | command (argv : List String)
  deriving DecidableEq, Repr

/-- How a Go function ends: it returns, or the process exits (`os.Exit`). -/
inductive Ending (α : Type) where
  | returned (value : α)
  | exited (status : Nat)
  deriving DecidableEq, Repr

/-- A computation: the effects performed so far and how it ended. -/
structure Run (α : Type) where
  trace : List Effect
  ending : Ending α
  deriving DecidableEq, Repr

/-- Return without effect. -/
def Run.ret {α : Type} (a : α) : Run α := ⟨[], .returned a⟩

/-- Sequencing: once the process has exited nothing more happens. -/
def Run.andThen {α β : Type} (r : Run α) (k : α → Run β) : Run β :=
  match r.ending with
  | .exited s => ⟨r.trace, .exited s⟩
  | .returned a => ⟨r.trace ++ (k a).trace, (k a).ending⟩

instance : Monad Run where
  pure := Run.ret
  bind := Run.andThen

/-- Perform one effect and return. -/
def emit (e : Effect) : Run Unit := ⟨[e], .returned ()⟩

/-- Model of `os.Exit(status)`. -/
def osExit {α : Type} (status : Nat) : Run α := ⟨[], .exited status⟩

/-- Model of `fmt.Println(a, b, ...)` on strings: operands separated by one
space, newline appended. -/
def println (operands : List String) : Run Unit :=
  emit (.stdout (" ".intercalate operands ++ "\n"))

/-- Exit status of the whole process for a run of `main`: returning from
`main` ends the process with status 0. -/
def Run.status (r : Run Unit) : Nat :=
  match r.ending with
  | .returned _ => 0
  | .exited s => s

/-! ## The unit configuration -/

/-- SystemdUnit represents the configuration for a systemd unit. -/
structure SystemdUnit where
  ServiceName : String
  Description : String
  ExecStart : String
  User : String
  Group : String
  WorkingDir : String
  deriving DecidableEq, Repr

/-! ## The fragment of `text/template` used by `GenerateUnitFile` -/

/-- Parsed template nodes: literal text, or the action that prints a field
of the data value. -/
inductive Node where
  | text (s : List Char)
  | field (name : List Char)
  deriving DecidableEq, Repr

/-- Left and right delimiter character (the delimiters are this character
doubled). -/
def leftBrace : Char := '\x7b'

/-- Right delimiter character. -/
def rightBrace : Char := '\x7d'

/-- The characters the template lexer skips inside an action. -/
def isActionSpace (c : Char) : Bool := c == ' ' || c == '\t' || c == '\r' || c == '\n'

/-- Remove the spaces around the body of an action. -/
def trimSpaces (cs : List Char) : List Char :=
  ((cs.dropWhile isActionSpace).reverse.dropWhile isActionSpace).reverse

/-- An action body of the fragment: a dot followed by a field name. -/
def parseAction (body : List Char) : Except String Node :=
  match trimSpaces body with
  | [] => .error "missing value for command"
  | c :: name =>
    if c == '.' && !name.isEmpty && name.all Char.isAlphanum then .ok (.field name)
    else .error "unsupported action"

/-- Put a (possibly empty) run of literal text in front of the nodes. -/
def consText (acc : List Char) (ns : List Node) : List Node :=
  if acc.isEmpty then ns else .text acc.reverse :: ns

/-- Model of `template.Parse`: `acc` holds, reversed, the characters of the
text or action being scanned; `inAction` tells which; `skip` is set when the
character at hand is the second character of a delimiter already recognised. -/
def parseNodes : List Char → Bool → Bool → List Char → Except String (List Node)
  | [], _, inAction, acc =>
    if inAction then .error "unclosed action" else .ok (consText acc [])
  | c :: cs, skip, inAction, acc =>
    if skip then parseNodes cs false inAction acc
    else if !inAction && c == leftBrace && cs.head? == some leftBrace then
      match parseNodes cs true true [] with
      | .ok ns => .ok (consText acc ns)
      | .error e => .error e
    else if inAction && c == rightBrace && cs.head? == some rightBrace then
      match parseAction acc.reverse, parseNodes cs true false [] with
      | .ok n, .ok ns => .ok (n :: ns)
      | .error e, _ => .error e
      | _, .error e => .error e
    else parseNodes cs false inAction (c :: acc)

/-- Model of `template.New("unit").Parse(text)`. -/
def templateParse (text : String) : Except String (List Node) :=
  parseNodes text.data false false []

/-- Field access on the data value, by name, as the template engine does by
reflection. -/
def fieldByName (unit : SystemdUnit) (name : List Char) : Except String String :=
  if name = "ServiceName".data then .ok unit.ServiceName
  else if name = "Description".data then .ok unit.Description
  else if name = "ExecStart".data then .ok unit.ExecStart
  else if name = "User".data then .ok unit.User
  else if name = "Group".data then .ok unit.Group
  else if name = "WorkingDir".data then .ok unit.WorkingDir
  else .error ("can't evaluate field " ++ String.mk name)

/-- Model of `tmpl.Execute(result, unit)`: text is copied, a field is printed
with `fmt.Fprint`, which writes a string value as it is. -/
def templateExecute (unit : SystemdUnit) : List Node → Except String (List Char)
  | [] => .ok []
  | .text s :: ns =>
    match templateExecute unit ns with
    | .ok out => .ok (s ++ out)
    | .error e => .error e
  | .field name :: ns =>
    match fieldByName unit name, templateExecute unit ns with
    | .ok v, .ok out => .ok (v.data ++ out)
    | .error e, _ => .error e
    | _, .error e => .error e

/-- The constant `unitTemplate` of `GenerateUnitFile`. -/
def unitTemplate : String :=
  "[Unit]\nDescription=\x7b\x7b.Description\x7d\x7d\n\n[Service]\nExecStart=\x7b\x7b .ExecStart \x7d\x7d\nRestart=always\nUser=\x7b\x7b .User \x7d\x7d\nGroup=\x7b\x7b .Group \x7d\x7d\nWorkingDirectory=\x7b\x7b .WorkingDir \x7d\x7d\n\n[Install]\nWantedBy=multi-user.target\n"

/-- GenerateUnitFile generates the content for a systemd unit file. -/
def GenerateUnitFile (unit : SystemdUnit) : Run String :=
  match templateParse unitTemplate with
  | .error err => do
    println ["Error creating template:", err]
    osExit 1
  | .ok tmpl =>
    match templateExecute unit tmpl with
    | .error err => do
      println ["Error executing template:", err]
      osExit 1
    | .ok result => pure (String.mk result)

/-! ## Environment and command line -/

/-- What the program learns from a finished subprocess: the error returned by
`cmd.Run` or `cmd.CombinedOutput` (`none` for `nil`) and the combined output. -/
structure CmdResult where
  err : Option String
  output : String
  deriving DecidableEq, Repr

/-- The operating system as the program sees it. -/
structure Env where
  /-- Does `exec.LookPath file` return a nil error. -/
  lookPath : String → Bool
  /-- The error of `os.WriteFile name data perm` (`none` for `nil`). -/
  writeFile : String → String → Nat → Option String
  /-- The result of running the subprocess with these arguments. -/
  run : List String → CmdResult

/-- The flags given on the command line (after a successful `flag.Parse`):
`none` when the flag is omitted. -/
structure CommandLine where
  name : Option String
  description : Option String
  exec : Option String
  user : Option String
  group : Option String
  workdir : Option String
  install : Option Bool
  enable : Option Bool
  deriving DecidableEq, Repr

/-- Model of `flag.String(name, value, usage)` read after `flag.Parse`. -/
def flagString (given : Option String) (value : String) : String := given.getD value

/-- Model of `flag.Bool(name, value, usage)` read after `flag.Parse`. -/
def flagBool (given : Option Bool) (value : Bool) : Bool := given.getD value

/-! ## `strings.Split` -/

/-- Scan for the separator from left to right: `acc` holds, reversed, the
piece being collected, `skip` the number of characters of a recognised
separator still to step over. -/
def splitScan (sep : List Char) : List Char → Nat → List Char → List (List Char)
  | [], _, acc => [acc.reverse]
  | _ :: cs, skip + 1, acc => splitScan sep cs skip acc
  | c :: cs, 0, acc =>
    if sep.isPrefixOf (c :: cs) then acc.reverse :: splitScan sep cs (sep.length - 1) []
    else splitScan sep cs 0 (c :: acc)

/-- Model of `strings.Split(s, sep)`: an empty separator explodes the string
into its characters, otherwise the string is cut at every occurrence of the
separator. -/
def stringsSplit (s sep : String) : List String :=
  if sep.data.isEmpty then s.data.map fun c => String.mk [c]
  else (splitScan sep.data s.data 0 []).map String.mk

/-! ## The program -/

/-- Start the subprocess and wait for it (`cmd.Run`, `cmd.CombinedOutput`). -/
def runCommand (env : Env) (argv : List String) : Run CmdResult :=
  ⟨[.command argv], .returned (env.run argv)⟩

/-- InstallUnitFile installs the unit file to the systemd directory. -/
def InstallUnitFile (env : Env) (filename : String) : Run Unit := do
  -- copy the unit file to the systemd directory
  let r ← runCommand env ["sudo", "cp", filename, "/etc/systemd/system/"]
  match r.err with
  | some err => do
    println ["Error installing unit file:", err]
    osExit 1
  | none => pure ()
  let r ← runCommand env ["sudo", "systemctl", "daemon-reload"]
  match r.err with
  | some err => do
    println ["Error reloading systemd daemon:", err]
    osExit 1
  | none => pure ()
  println ["Systemd unit file installed and daemon reloaded."]

/-- The function `required`: print the message and exit when the value is
empty. -/
def required (value : String) (message : String) : Run Unit :=
  if value = "" then do
    println [message]
    osExit 1
  else pure ()

/-- The function `EnableUnitFile`: enable the unit, then start it. -/
def EnableUnitFile (env : Env) (unitFileName : String) : Run Unit := do
  let r ← runCommand env ["sudo", "systemctl", "enable", unitFileName]
  match r.err with
  | some _ => do
    println [r.output]
    osExit 1
  | none => pure ()
  println [r.output]
  println ["Systemd unit file enabled."]
  -- start the service
  let r ← runCommand env ["sudo", "systemctl", "start", unitFileName]
  match r.err with
  | some _ => do
    println [r.output]
    osExit 1
  | none => pure ()
  println [r.output]
  println ["Systemd unit file started."]

/-- The function `main`.  Indexing the result of `strings.Split` at 0 panics
on an empty slice; a Go panic ends the process with status 2. -/
def main (env : Env) (args : CommandLine) : Run Unit := do
  let serviceName := flagString args.name ""
  let description := flagString args.description ""
  let execStart := flagString args.exec ""
  let user := flagString args.user "root"
  let group := flagString args.group "root"
  let workDir := flagString args.workdir "/"
  let install := flagBool args.install false
  let enable := flagBool args.enable false
  required serviceName "Service name is required"
  required description "Description is required"
  required execStart "Exec command is required"
  required user "User is required"
  required group "Group is required"
  required workDir "Working directory is required"
  -- verify that the execStart command is valid
  match stringsSplit execStart " " with
  | [] => osExit 2
  | executable :: _ => do
    emit (.lookPath executable)
    if !env.lookPath executable then do
      emit (.stdout ("Error finding executable: " ++ executable ++ "\n"))
      osExit 1
    let unit : SystemdUnit :=
      { ServiceName := serviceName
        Description := description
        ExecStart := execStart
        User := user
        Group := group
        WorkingDir := workDir }
    let unitFileContent ← GenerateUnitFile unit
    let unitFileName := "/tmp/" ++ serviceName ++ ".service"
    emit (.writeFile unitFileName unitFileContent 0o644)
    match env.writeFile unitFileName unitFileContent 0o644 with
    | some err => do
      println ["Error writing unit file:", err]
      osExit 1
    | none => pure ()
    emit (.stdout ("Systemd unit file generated at: " ++ unitFileName ++ "\n"))
    if install then do
      InstallUnitFile env unitFileName
      if enable then
        EnableUnitFile env unitFileName

/-! ## Observations on traces -/

/-- The `os.WriteFile` calls the trace issues, whatever their outcome: path
and content of each. -/
def fileWrites : List Effect → List (String × String)
  | [] => []
  | .writeFile name data _ :: es => (name, data) :: fileWrites es
  | _ :: es => fileWrites es

/-- The files really written: path and content of every `os.WriteFile` call
of the trace that the environment lets succeed. -/
def filesWritten (env : Env) : List Effect → List (String × String)
  | [] => []
  | .writeFile name data perm :: es =>
    if (env.writeFile name data perm).isNone then (name, data) :: filesWritten env es
    else filesWritten env es
  | _ :: es => filesWritten env es

/-- The subprocesses the trace starts, by their argument vectors. -/
def commands : List Effect → List (List String)
  | [] => []
  | .command argv :: es => argv :: commands es
  | _ :: es => commands es

/-- The names the trace looks up with `exec.LookPath`. -/
def lookups : List Effect → List String
  | [] => []
  | .lookPath file :: es => file :: lookups es
  | _ :: es => lookups es

/-! ## Vocabulary of the statements -/

/-- Number of positions of the text at which the pattern occurs. -/
def countOccurrences (pat : List Char) : List Char → Nat
  | [] => 0
  | c :: cs => (if pat.isPrefixOf (c :: cs) then 1 else 0) + countOccurrences pat cs

/-- Number of occurrences of `pat` in `s`. -/
def occurrences (pat s : String) : Nat := countOccurrences pat.data s.data

/-- First whitespace-delimited token of a string, in the words of the
specification: the maximal run of non-whitespace characters that comes first
in the string. -/
def firstWhitespaceToken (s : String) : String :=
  String.mk ((s.data.dropWhile Char.isWhitespace).takeWhile fun c => !c.isWhitespace)

/-- The text `GenerateUnitFile` is expected to produce. -/
def unitFileText (unit : SystemdUnit) : String :=
  "[Unit]\nDescription=" ++ unit.Description ++ "\n\n[Service]\nExecStart=" ++ unit.ExecStart
    ++ "\nRestart=always\nUser=" ++ unit.User ++ "\nGroup=" ++ unit.Group
    ++ "\nWorkingDirectory=" ++ unit.WorkingDir ++ "\n\n[Install]\nWantedBy=multi-user.target\n"

/-- The text of the start command before its first space character. -/
def beforeFirstSpace (s : String) : String :=
  String.mk (s.data.takeWhile (· != ' '))

/-- The arguments of the four privileged subprocesses. -/
def cpArgv (file : String) : List String := ["sudo", "cp", file, "/etc/systemd/system/"]

/-- Arguments of the daemon reload. -/
def reloadArgv : List String := ["sudo", "systemctl", "daemon-reload"]

/-- Arguments of the enable command. -/
def enableArgv (file : String) : List String := ["sudo", "systemctl", "enable", file]

/-- Arguments of the start command. -/
def startArgv (file : String) : List String := ["sudo", "systemctl", "start", file]

/-- Did the subprocess with these arguments succeed. -/
def Env.ok (env : Env) (argv : List String) : Bool := (env.run argv).err.isNone

/-- The six flag values all non-empty after defaulting. -/
def allRequired (args : CommandLine) : Prop :=
  flagString args.name "" ≠ "" ∧ flagString args.description "" ≠ "" ∧
  flagString args.exec "" ≠ "" ∧ flagString args.user "root" ≠ "" ∧
  flagString args.group "root" ≠ "" ∧ flagString args.workdir "/" ≠ ""

/-- The configuration `main` builds from the flags. -/
def unitOf (args : CommandLine) : SystemdUnit :=
  { ServiceName := flagString args.name ""
    Description := flagString args.description ""
    ExecStart := flagString args.exec ""
    User := flagString args.user "root"
    Group := flagString args.group "root"
    WorkingDir := flagString args.workdir "/" }

/-- The path `main` writes the unit file to. -/
def unitFileNameOf (args : CommandLine) : String :=
  "/tmp/" ++ flagString args.name "" ++ ".service"

/-- The last part of `main`: the privileged steps selected by the flags. -/
def privilegedSteps (env : Env) (args : CommandLine) : Run Unit :=
  if flagBool args.install false then
    (InstallUnitFile env (unitFileNameOf args)).andThen fun _ =>
      if flagBool args.enable false then EnableUnitFile env (unitFileNameOf args)
      else Run.ret ()
  else Run.ret ()

/-- A run passes validation: the six values are non-empty and the
executable `main` looks up is resolved. -/
def validated (env : Env) (args : CommandLine) : Prop :=
  allRequired args ∧ env.lookPath (beforeFirstSpace (flagString args.exec "")) = true

/-- The messages of the six `required` calls, in order. -/
def requiredMessages : List String :=
  ["Service name is required", "Description is required", "Exec command is required",
   "User is required", "Group is required", "Working directory is required"]

/-- Occurrences of a pattern inside the five rendered field values. -/
def fieldOccurrences (pat : String) (unit : SystemdUnit) : Nat :=
  occurrences pat unit.Description + occurrences pat unit.ExecStart + occurrences pat unit.User
    + occurrences pat unit.Group + occurrences pat unit.WorkingDir

/-- The text `s` contains the text `pat`. -/
def containsText (pat s : String) : Prop := ∃ pre post : String, s = pre ++ pat ++ post

/-! ## Concrete runs -/

/-- The flags of the example of the specification, without the boolean flags. -/
def exampleArgs : CommandLine :=
  { name := some "myapp", description := some "My App",
    exec := some "/usr/bin/myapp --flag", user := some "appuser",
    group := some "appgroup", workdir := some "/opt/myapp",
    install := none, enable := none }

/-- An environment in which every step succeeds. -/
def envAllOk : Env :=
  { lookPath := fun _ => true, writeFile := fun _ _ _ => none, run := fun _ => ⟨none, ""⟩ }

/-- An environment in which no executable is found. -/
def envNoPath : Env :=
  { lookPath := fun _ => false, writeFile := fun _ _ _ => none, run := fun _ => ⟨none, ""⟩ }

/-- An environment in which the file write fails. -/
def envWriteFails : Env :=
  { lookPath := fun _ => true, writeFile := fun _ _ _ => some "permission denied",
    run := fun _ => ⟨none, ""⟩ }

/-- An environment in which only the enable command fails. -/
def envEnableFails : Env :=
  { lookPath := fun _ => true, writeFile := fun _ _ _ => none,
    run := fun argv =>
      if argv = ["sudo", "systemctl", "enable", "/tmp/myapp.service"] then
        ⟨some "exit status 1", "Failed to enable unit."⟩
      else ⟨none, ""⟩ }

/-- An environment in which only the copy fails. -/
def envCopyFails : Env :=
  { lookPath := fun _ => true, writeFile := fun _ _ _ => none,
    run := fun argv =>
      if argv = ["sudo", "cp", "/tmp/myapp.service", "/etc/systemd/system/"] then
        ⟨some "exit status 1", ""⟩
      else ⟨none, ""⟩ }

/-- An environment whose search path resolves one name only, a file whose
name holds a tab. -/
def envTabName : Env :=
  { lookPath := fun file => decide (file = "/opt/x\t--flag"),
    writeFile := fun _ _ _ => none, run := fun _ => ⟨none, ""⟩ }

/-- A configuration whose description is a section header. -/
def bracketUnit : SystemdUnit :=
  { ServiceName := "myapp", Description := "[Unit]", ExecStart := "/usr/bin/myapp",
    User := "root", Group := "root", WorkingDir := "/" }

/-! ## Rendering -/

set_option maxRecDepth 100000 in
theorem templateParse_unitTemplate :
    templateParse unitTemplate = .ok
      [ .text "[Unit]\nDescription=".data, .field "Description".data,
        .text "\n\n[Service]\nExecStart=".data, .field "ExecStart".data,
        .text "\nRestart=always\nUser=".data, .field "User".data,
        .text "\nGroup=".data, .field "Group".data,
        .text "\nWorkingDirectory=".data, .field "WorkingDir".data,
        .text "\n\n[Install]\nWantedBy=multi-user.target\n".data ] := by
  rfl

theorem fieldByName_Description (unit : SystemdUnit) :
    fieldByName unit "Description".data = .ok unit.Description := rfl

theorem fieldByName_ExecStart (unit : SystemdUnit) :
    fieldByName unit "ExecStart".data = .ok unit.ExecStart := rfl

theorem fieldByName_User (unit : SystemdUnit) :
    fieldByName unit "User".data = .ok unit.User := rfl

theorem fieldByName_Group (unit : SystemdUnit) :
    fieldByName unit "Group".data = .ok unit.Group := rfl

theorem fieldByName_WorkingDir (unit : SystemdUnit) :
    fieldByName unit "WorkingDir".data = .ok unit.WorkingDir := rfl

theorem GenerateUnitFile_eq (unit : SystemdUnit) :
    GenerateUnitFile unit = ⟨[], .returned (unitFileText unit)⟩ := by
  unfold GenerateUnitFile
  rw [templateParse_unitTemplate]
  simp only [templateExecute, fieldByName_Description, fieldByName_ExecStart,
    fieldByName_User, fieldByName_Group, fieldByName_WorkingDir, pure, Run.ret]
  refine congrArg (fun t => Run.mk [] (Ending.returned t)) ?_
  apply String.ext
  simp [unitFileText, String.data_append]

/-! ## Laws of the process model -/

@[simp] theorem Run.bind_eq {α β : Type} (r : Run α) (k : α → Run β) :
    r >>= k = r.andThen k := rfl

@[simp] theorem Run.pure_eq {α : Type} (a : α) : (pure a : Run α) = Run.ret a := rfl

@[simp] theorem Run.andThen_returned {α β : Type} (t : List Effect) (a : α) (k : α → Run β) :
    Run.andThen ⟨t, .returned a⟩ k = ⟨t ++ (k a).trace, (k a).ending⟩ := rfl

@[simp] theorem Run.andThen_exited {α β : Type} (t : List Effect) (s : Nat) (k : α → Run β) :
    Run.andThen (⟨t, .exited s⟩ : Run α) k = ⟨t, .exited s⟩ := rfl

@[simp] theorem Run.andThen_ret {α β : Type} (a : α) (k : α → Run β) :
    Run.andThen (Run.ret a) k = k a := by
  simp [Run.ret]

theorem required_empty (message : String) :
    required "" message = ⟨[.stdout (message ++ "\n")], .exited 1⟩ := by
  simp [required, println, emit, osExit, String.intercalate, String.intercalate.go]

theorem required_nonempty (value message : String) (h : value ≠ "") :
    required value message = Run.ret () := by
  simp [required, h]

theorem splitScan_space (s acc : List Char) :
    ∃ tl, splitScan [' '] s 0 acc = (acc.reverse ++ s.takeWhile (· != ' ')) :: tl := by
  induction s generalizing acc with
  | nil => exact ⟨[], by simp [splitScan]⟩
  | cons c cs ih =>
    by_cases hc : c = ' '
    · subst hc
      exact ⟨splitScan [' '] cs 0 [], by simp [splitScan, List.isPrefixOf]⟩
    · obtain ⟨tl, htl⟩ := ih (c :: acc)
      refine ⟨tl, ?_⟩
      have hc2 : (' ' == c) = false := by simpa using fun h => hc h.symm
      simp [splitScan, List.isPrefixOf, hc2, htl, hc, List.takeWhile_cons]

theorem stringsSplit_space (s : String) :
    ∃ tl, stringsSplit s " " = beforeFirstSpace s :: tl := by
  obtain ⟨tl, htl⟩ := splitScan_space s.data []
  refine ⟨tl.map String.mk, ?_⟩
  have : " ".data = [' '] := rfl
  simp [stringsSplit, this, htl, beforeFirstSpace]

theorem println_one (a : String) : println [a] = ⟨[.stdout (a ++ "\n")], .returned ()⟩ := by
  simp [println, emit, String.intercalate, String.intercalate.go]

theorem println_two (a b : String) :
    println [a, b] = ⟨[.stdout (a ++ " " ++ b ++ "\n")], .returned ()⟩ := by
  simp [println, emit, String.intercalate, String.intercalate.go]

theorem InstallUnitFile_eq (env : Env) (file : String) :
    InstallUnitFile env file =
      match (env.run (cpArgv file)).err with
      | some err =>
        ⟨[.command (cpArgv file), .stdout ("Error installing unit file: " ++ err ++ "\n")],
          .exited 1⟩
      | none =>
        match (env.run reloadArgv).err with
        | some err =>
          ⟨[.command (cpArgv file), .command reloadArgv,
            .stdout ("Error reloading systemd daemon: " ++ err ++ "\n")], .exited 1⟩
        | none =>
          ⟨[.command (cpArgv file), .command reloadArgv,
            .stdout "Systemd unit file installed and daemon reloaded.\n"], .returned ()⟩ := by
  unfold InstallUnitFile
  simp only [cpArgv, reloadArgv]
  cases h1 : (env.run ["sudo", "cp", file, "/etc/systemd/system/"]).err <;>
    cases h2 : (env.run ["sudo", "systemctl", "daemon-reload"]).err <;>
    simp [runCommand, h1, h2, println_one, println_two, osExit, Run.ret]

theorem EnableUnitFile_eq (env : Env) (file : String) :
    EnableUnitFile env file =
      match (env.run (enableArgv file)).err with
      | some _ =>
        ⟨[.command (enableArgv file), .stdout ((env.run (enableArgv file)).output ++ "\n")],
          .exited 1⟩
      | none =>
        match (env.run (startArgv file)).err with
        | some _ =>
          ⟨[.command (enableArgv file), .stdout ((env.run (enableArgv file)).output ++ "\n"),
            .stdout "Systemd unit file enabled.\n", .command (startArgv file),
            .stdout ((env.run (startArgv file)).output ++ "\n")], .exited 1⟩
        | none =>
          ⟨[.command (enableArgv file), .stdout ((env.run (enableArgv file)).output ++ "\n"),
            .stdout "Systemd unit file enabled.\n", .command (startArgv file),
            .stdout ((env.run (startArgv file)).output ++ "\n"),
            .stdout "Systemd unit file started.\n"], .returned ()⟩ := by
  unfold EnableUnitFile
  simp only [enableArgv, startArgv]
  cases h1 : (env.run ["sudo", "systemctl", "enable", file]).err <;>
    cases h2 : (env.run ["sudo", "systemctl", "start", file]).err <;>
    simp [runCommand, h1, h2, println_one, osExit, Run.ret]

theorem main_valid (env : Env) (args : CommandLine) (h : allRequired args) :
    main env args =
      if env.lookPath (beforeFirstSpace (flagString args.exec "")) then
        match env.writeFile (unitFileNameOf args) (unitFileText (unitOf args)) 0o644 with
        | some err =>
          ⟨[.lookPath (beforeFirstSpace (flagString args.exec "")),
            .writeFile (unitFileNameOf args) (unitFileText (unitOf args)) 0o644,
            .stdout ("Error writing unit file: " ++ err ++ "\n")], .exited 1⟩
        | none =>
          ⟨.lookPath (beforeFirstSpace (flagString args.exec "")) ::
            .writeFile (unitFileNameOf args) (unitFileText (unitOf args)) 0o644 ::
            .stdout ("Systemd unit file generated at: " ++ unitFileNameOf args ++ "\n") ::
            (privilegedSteps env args).trace, (privilegedSteps env args).ending⟩
      else
        ⟨[.lookPath (beforeFirstSpace (flagString args.exec "")),
          .stdout ("Error finding executable: " ++ beforeFirstSpace (flagString args.exec "")
            ++ "\n")], .exited 1⟩ := by
  obtain ⟨hn, hd, he, hu, hg, hw⟩ := h
  obtain ⟨tl, htl⟩ := stringsSplit_space (flagString args.exec "")
  cases hl : env.lookPath (beforeFirstSpace (flagString args.exec ""))
  · simp [main, required_nonempty, hn, hd, he, hu, hg, hw, htl, emit, hl, osExit]
  · cases hwr : env.writeFile (unitFileNameOf args) (unitFileText (unitOf args)) 0o644
    · simp only [unitFileNameOf, unitOf] at hwr
      simp [main, required_nonempty, hn, hd, he, hu, hg, hw, htl, emit, hl, osExit,
        GenerateUnitFile_eq, hwr, privilegedSteps, unitFileNameOf, unitOf]
    · simp only [unitFileNameOf, unitOf] at hwr
      simp [main, required_nonempty, hn, hd, he, hu, hg, hw, htl, emit, hl, osExit,
        GenerateUnitFile_eq, hwr, privilegedSteps, unitFileNameOf, unitOf, println_two]

theorem main_missing (env : Env) (args : CommandLine) (h : ¬ allRequired args) :
    ∃ msg ∈ requiredMessages, main env args = ⟨[.stdout (msg ++ "\n")], .exited 1⟩ := by
  by_cases hn : flagString args.name "" = ""
  · exact ⟨"Service name is required", by simp [requiredMessages],
      by simp [main, hn, required_empty]⟩
  by_cases hd : flagString args.description "" = ""
  · exact ⟨"Description is required", by simp [requiredMessages],
      by simp [main, required_nonempty _ _ hn, hd, required_empty]⟩
  by_cases he : flagString args.exec "" = ""
  · exact ⟨"Exec command is required", by simp [requiredMessages],
      by simp [main, required_nonempty _ _ hn, required_nonempty _ _ hd, he, required_empty]⟩
  by_cases hu : flagString args.user "root" = ""
  · exact ⟨"User is required", by simp [requiredMessages],
      by simp [main, required_nonempty _ _ hn, required_nonempty _ _ hd,
        required_nonempty _ _ he, hu, required_empty]⟩
  by_cases hg : flagString args.group "root" = ""
  · exact ⟨"Group is required", by simp [requiredMessages],
      by simp [main, required_nonempty _ _ hn, required_nonempty _ _ hd,
        required_nonempty _ _ he, required_nonempty _ _ hu, hg, required_empty]⟩
  by_cases hw : flagString args.workdir "/" = ""
  · exact ⟨"Working directory is required", by simp [requiredMessages],
      by simp [main, required_nonempty _ _ hn, required_nonempty _ _ hd,
        required_nonempty _ _ he, required_nonempty _ _ hu, required_nonempty _ _ hg, hw,
        required_empty]⟩
  exact absurd ⟨hn, hd, he, hu, hg, hw⟩ h

theorem main_valid_head (env : Env) (args : CommandLine) (h : allRequired args) :
    ∃ t, (main env args).trace = .lookPath (beforeFirstSpace (flagString args.exec "")) :: t := by
  rw [main_valid env args h]
  split
  · split <;> exact ⟨_, rfl⟩
  · exact ⟨_, rfl⟩

theorem privilegedSteps_commands (env : Env) (args : CommandLine) :
    commands (privilegedSteps env args).trace =
      if flagBool args.install false then
        cpArgv (unitFileNameOf args) ::
          if env.ok (cpArgv (unitFileNameOf args)) then
            reloadArgv ::
              if env.ok reloadArgv && flagBool args.enable false then
                enableArgv (unitFileNameOf args) ::
                  if env.ok (enableArgv (unitFileNameOf args)) then
                    [startArgv (unitFileNameOf args)]
                  else []
              else []
          else []
      else [] := by
  unfold privilegedSteps
  rw [InstallUnitFile_eq, EnableUnitFile_eq]
  cases flagBool args.install false <;> cases flagBool args.enable false <;>
    cases h1 : (env.run (cpArgv (unitFileNameOf args))).err <;>
    cases h2 : (env.run reloadArgv).err <;>
    cases h3 : (env.run (enableArgv (unitFileNameOf args))).err <;>
    cases h4 : (env.run (startArgv (unitFileNameOf args))).err <;>
    simp [Env.ok, h1, h2, h3, h4, commands, Run.ret]

theorem privilegedSteps_fileWrites (env : Env) (args : CommandLine) :
    fileWrites (privilegedSteps env args).trace = [] := by
  unfold privilegedSteps
  rw [InstallUnitFile_eq, EnableUnitFile_eq]
  cases flagBool args.install false <;> cases flagBool args.enable false <;>
    cases h1 : (env.run (cpArgv (unitFileNameOf args))).err <;>
    cases h2 : (env.run reloadArgv).err <;>
    cases h3 : (env.run (enableArgv (unitFileNameOf args))).err <;>
    cases h4 : (env.run (startArgv (unitFileNameOf args))).err <;>
    simp [h1, h2, h3, h4, fileWrites, Run.ret]

theorem privilegedSteps_lookups (env : Env) (args : CommandLine) :
    lookups (privilegedSteps env args).trace = [] := by
  unfold privilegedSteps
  rw [InstallUnitFile_eq, EnableUnitFile_eq]
  cases flagBool args.install false <;> cases flagBool args.enable false <;>
    cases h1 : (env.run (cpArgv (unitFileNameOf args))).err <;>
    cases h2 : (env.run reloadArgv).err <;>
    cases h3 : (env.run (enableArgv (unitFileNameOf args))).err <;>
    cases h4 : (env.run (startArgv (unitFileNameOf args))).err <;>
    simp [h1, h2, h3, h4, lookups, Run.ret]

theorem privilegedSteps_ending (env : Env) (args : CommandLine) :
    (privilegedSteps env args).ending =
      if flagBool args.install false = true →
          env.ok (cpArgv (unitFileNameOf args)) = true ∧ env.ok reloadArgv = true ∧
          (flagBool args.enable false = true →
            env.ok (enableArgv (unitFileNameOf args)) = true ∧
            env.ok (startArgv (unitFileNameOf args)) = true)
      then .returned () else .exited 1 := by
  unfold privilegedSteps
  rw [InstallUnitFile_eq, EnableUnitFile_eq]
  cases flagBool args.install false <;> cases flagBool args.enable false <;>
    cases h1 : (env.run (cpArgv (unitFileNameOf args))).err <;>
    cases h2 : (env.run reloadArgv).err <;>
    cases h3 : (env.run (enableArgv (unitFileNameOf args))).err <;>
    cases h4 : (env.run (startArgv (unitFileNameOf args))).err <;>
    simp [Env.ok, h1, h2, h3, h4, Run.ret]

theorem main_valid_commands (env : Env) (args : CommandLine) (hv : validated env args)
    (hw : env.writeFile (unitFileNameOf args) (unitFileText (unitOf args)) 0o644 = none) :
    commands (main env args).trace = commands (privilegedSteps env args).trace := by
  rw [main_valid env args hv.1]
  simp [hv.2, hw, commands]

theorem main_valid_ending (env : Env) (args : CommandLine) (hv : validated env args)
    (hw : env.writeFile (unitFileNameOf args) (unitFileText (unitOf args)) 0o644 = none) :
    (main env args).ending = (privilegedSteps env args).ending := by
  rw [main_valid env args hv.1]
  simp [hv.2, hw]

theorem privilegedSteps_filesWritten (env : Env) (args : CommandLine) :
    filesWritten env (privilegedSteps env args).trace = [] := by
  unfold privilegedSteps
  rw [InstallUnitFile_eq, EnableUnitFile_eq]
  cases flagBool args.install false <;> cases flagBool args.enable false <;>
    cases h1 : (env.run (cpArgv (unitFileNameOf args))).err <;>
    cases h2 : (env.run reloadArgv).err <;>
    cases h3 : (env.run (enableArgv (unitFileNameOf args))).err <;>
    cases h4 : (env.run (startArgv (unitFileNameOf args))).err <;>
    simp [h1, h2, h3, h4, filesWritten, Run.ret]

theorem main_valid_filesWritten (env : Env) (args : CommandLine) (hv : validated env args) :
    filesWritten env (main env args).trace =
      if env.writeFile (unitFileNameOf args) (unitFileText (unitOf args)) 0o644 = none then
        [(unitFileNameOf args, unitFileText (unitOf args))]
      else [] := by
  rw [main_valid env args hv.1]
  cases hw : env.writeFile (unitFileNameOf args) (unitFileText (unitOf args)) 0o644 <;>
    simp [hv.2, filesWritten, privilegedSteps_filesWritten, hw]

theorem main_valid_no_install (env : Env) (args : CommandLine) (hv : validated env args)
    (hw : env.writeFile (unitFileNameOf args) (unitFileText (unitOf args)) 0o644 = none)
    (hi : flagBool args.install false = false) :
    (main env args).status = 0 := by
  rw [main_valid env args hv.1]
  simp [hv.2, hw, Run.status, privilegedSteps, hi, Run.ret]

theorem main_valid_fileWrites (env : Env) (args : CommandLine) (hv : validated env args) :
    fileWrites (main env args).trace = [(unitFileNameOf args, unitFileText (unitOf args))] := by
  rw [main_valid env args hv.1]
  cases hw : env.writeFile (unitFileNameOf args) (unitFileText (unitOf args)) 0o644 <;>
    simp [hv.2, fileWrites, privilegedSteps_fileWrites]

theorem main_valid_lookups (env : Env) (args : CommandLine) (h : allRequired args) :
    lookups (main env args).trace = [beforeFirstSpace (flagString args.exec "")] := by
  rw [main_valid env args h]
  cases hl : env.lookPath (beforeFirstSpace (flagString args.exec "")) <;>
    cases hw : env.writeFile (unitFileNameOf args) (unitFileText (unitOf args)) 0o644 <;>
    simp [lookups, privilegedSteps_lookups]

theorem main_unresolved (env : Env) (args : CommandLine) (h : allRequired args)
    (hl : env.lookPath (beforeFirstSpace (flagString args.exec "")) = false) :
    main env args =
      ⟨[.lookPath (beforeFirstSpace (flagString args.exec "")),
        .stdout ("Error finding executable: " ++ beforeFirstSpace (flagString args.exec "")
          ++ "\n")], .exited 1⟩ := by
  rw [main_valid env args h]
  simp [hl]

theorem main_install_unset (env : Env) (args : CommandLine)
    (hi : flagBool args.install false = false) (e : Option Bool) :
    main env { args with enable := e } = main env args := by
  have key : ∀ a : CommandLine, flagBool a.install false = false →
      main env a = main env { a with enable := none } := by
    intro a ha
    simp [main, ha]
  rw [key args hi, key { args with enable := e } hi]

/-! ## Counting occurrences in the rendered text -/

theorem isPrefixOf_append_sep (pat : List Char) (c : Char) (hc : c ∉ pat) (l r : List Char) :
    pat.isPrefixOf (l ++ c :: r) = pat.isPrefixOf l := by
  induction pat generalizing l with
  | nil => simp
  | cons p ps ih =>
    have hpc : p ≠ c := fun h => hc (by simp [h])
    have hps : c ∉ ps := fun h => hc (by simp [h])
    cases l with
    | nil => simp [List.isPrefixOf, hpc]
    | cons x xs => simp [List.isPrefixOf, ih hps xs]

theorem countOccurrences_sep (pat : List Char) (c : Char) (hc : c ∉ pat) (hp : pat ≠ [])
    (l r : List Char) :
    countOccurrences pat (l ++ c :: r) = countOccurrences pat l + countOccurrences pat r := by
  induction l with
  | nil =>
    cases pat with
    | nil => exact absurd rfl hp
    | cons p ps =>
      have hpc : p ≠ c := fun h => hc (by simp [h])
      simp [countOccurrences, List.isPrefixOf, hpc]
  | cons x xs ih =>
    have h := isPrefixOf_append_sep pat c hc (x :: xs) r
    simp only [List.cons_append] at h ⊢
    simp only [countOccurrences, h, ih]
    omega

theorem countOccurrences_segment (pat : List Char) (h1 : '=' ∉ pat) (h2 : '\n' ∉ pat)
    (hp : pat ≠ []) (lit f rest : List Char) :
    countOccurrences pat (lit ++ '=' :: (f ++ '\n' :: rest)) =
      countOccurrences pat lit + countOccurrences pat f + countOccurrences pat rest := by
  rw [countOccurrences_sep pat '=' h1 hp, countOccurrences_sep pat '\n' h2 hp]
  omega

theorem unitFileText_data (unit : SystemdUnit) :
    (unitFileText unit).data =
      "[Unit]\nDescription".data ++ '=' :: (unit.Description.data ++ '\n' ::
      ("\n[Service]\nExecStart".data ++ '=' :: (unit.ExecStart.data ++ '\n' ::
      ("Restart=always\nUser".data ++ '=' :: (unit.User.data ++ '\n' ::
      ("Group".data ++ '=' :: (unit.Group.data ++ '\n' ::
      ("WorkingDirectory".data ++ '=' :: (unit.WorkingDir.data ++ '\n' ::
      "\n[Install]\nWantedBy=multi-user.target\n".data))))))))) := by
  simp [unitFileText, String.data_append]

theorem occurrences_unitFileText (pat : String) (h1 : '=' ∉ pat.data) (h2 : '\n' ∉ pat.data)
    (hp : pat.data ≠ []) (unit : SystemdUnit) :
    occurrences pat (unitFileText unit) =
      occurrences pat "[Unit]\nDescription" + occurrences pat "\n[Service]\nExecStart"
        + occurrences pat "Restart=always\nUser" + occurrences pat "Group"
        + occurrences pat "WorkingDirectory"
        + occurrences pat "\n[Install]\nWantedBy=multi-user.target\n"
        + fieldOccurrences pat unit := by
  unfold occurrences fieldOccurrences occurrences
  rw [unitFileText_data]
  simp only [countOccurrences_segment pat.data h1 h2 hp]
  omega

theorem occurrences_header_Unit (unit : SystemdUnit) :
    occurrences "[Unit]" (unitFileText unit) = 1 + fieldOccurrences "[Unit]" unit := by
  rw [occurrences_unitFileText "[Unit]" (by decide) (by decide) (by decide)]
  have e1 : occurrences "[Unit]" "[Unit]\nDescription" = 1 := by decide
  have e2 : occurrences "[Unit]" "\n[Service]\nExecStart" = 0 := by decide
  have e3 : occurrences "[Unit]" "Restart=always\nUser" = 0 := by decide
  have e4 : occurrences "[Unit]" "Group" = 0 := by decide
  have e5 : occurrences "[Unit]" "WorkingDirectory" = 0 := by decide
  have e6 : occurrences "[Unit]" "\n[Install]\nWantedBy=multi-user.target\n" = 0 := by decide
  omega

theorem occurrences_header_Service (unit : SystemdUnit) :
    occurrences "[Service]" (unitFileText unit) = 1 + fieldOccurrences "[Service]" unit := by
  rw [occurrences_unitFileText "[Service]" (by decide) (by decide) (by decide)]
  have e1 : occurrences "[Service]" "[Unit]\nDescription" = 0 := by decide
  have e2 : occurrences "[Service]" "\n[Service]\nExecStart" = 1 := by decide
  have e3 : occurrences "[Service]" "Restart=always\nUser" = 0 := by decide
  have e4 : occurrences "[Service]" "Group" = 0 := by decide
  have e5 : occurrences "[Service]" "WorkingDirectory" = 0 := by decide
  have e6 : occurrences "[Service]" "\n[Install]\nWantedBy=multi-user.target\n" = 0 := by
    decide
  omega

theorem occurrences_header_Install (unit : SystemdUnit) :
    occurrences "[Install]" (unitFileText unit) = 1 + fieldOccurrences "[Install]" unit := by
  rw [occurrences_unitFileText "[Install]" (by decide) (by decide) (by decide)]
  have e1 : occurrences "[Install]" "[Unit]\nDescription" = 0 := by decide
  have e2 : occurrences "[Install]" "\n[Service]\nExecStart" = 0 := by decide
  have e3 : occurrences "[Install]" "Restart=always\nUser" = 0 := by decide
  have e4 : occurrences "[Install]" "Group" = 0 := by decide
  have e5 : occurrences "[Install]" "WorkingDirectory" = 0 := by decide
  have e6 : occurrences "[Install]" "\n[Install]\nWantedBy=multi-user.target\n" = 1 := by
    decide
  omega

theorem unitFileText_sections (unit : SystemdUnit) :
    ∃ a b c d : String,
      unitFileText unit = a ++ "[Unit]" ++ b ++ "[Service]" ++ c ++ "[Install]" ++ d := by
  refine ⟨"", "\nDescription=" ++ unit.Description ++ "\n\n",
    "\nExecStart=" ++ unit.ExecStart ++ "\nRestart=always\nUser=" ++ unit.User ++ "\nGroup="
      ++ unit.Group ++ "\nWorkingDirectory=" ++ unit.WorkingDir ++ "\n\n",
    "\nWantedBy=multi-user.target\n", ?_⟩
  apply String.ext
  simp [unitFileText, String.data_append]

theorem unitFileText_restart (unit : SystemdUnit) :
    containsText "Restart=always" (unitFileText unit) := by
  refine ⟨"[Unit]\nDescription=" ++ unit.Description ++ "\n\n[Service]\nExecStart="
      ++ unit.ExecStart ++ "\n",
    "\nUser=" ++ unit.User ++ "\nGroup=" ++ unit.Group ++ "\nWorkingDirectory="
      ++ unit.WorkingDir ++ "\n\n[Install]\nWantedBy=multi-user.target\n", ?_⟩
  apply String.ext
  simp [unitFileText, String.data_append]

theorem unitFileText_wantedBy (unit : SystemdUnit) :
    containsText "WantedBy=multi-user.target" (unitFileText unit) := by
  refine ⟨"[Unit]\nDescription=" ++ unit.Description ++ "\n\n[Service]\nExecStart="
      ++ unit.ExecStart ++ "\nRestart=always\nUser=" ++ unit.User ++ "\nGroup=" ++ unit.Group
      ++ "\nWorkingDirectory=" ++ unit.WorkingDir ++ "\n\n[Install]\n", "\n", ?_⟩
  apply String.ext
  simp [unitFileText, String.data_append]

/-! ## The looked-up name and the first token -/

theorem takeWhile_agree (p q : Char → Bool) (l : List Char) (h : ∀ c ∈ l, p c = q c) :
    l.takeWhile p = l.takeWhile q := by
  induction l with
  | nil => rfl
  | cons x xs ih =>
    have hx : p x = q x := h x (by simp)
    have ih2 := ih fun c hc => h c (by simp [hc])
    simp [List.takeWhile_cons, hx, ih2]

theorem beforeFirstSpace_eq_token (s : String)
    (h1 : ∀ c ∈ s.data, c.isWhitespace = true → c = ' ') (h2 : s.data.head? ≠ some ' ') :
    beforeFirstSpace s = firstWhitespaceToken s := by
  unfold beforeFirstSpace firstWhitespaceToken
  have hdrop : s.data.dropWhile Char.isWhitespace = s.data := by
    cases hs : s.data with
    | nil => rfl
    | cons c cs =>
      rw [hs] at h1 h2
      have hc : c ≠ ' ' := fun h => h2 (by simp [h])
      have hw : c.isWhitespace = false := by
        cases hcw : c.isWhitespace with
        | false => rfl
        | true => exact absurd (h1 c (by simp) hcw) hc
      simp [List.dropWhile_cons, hw]
  rw [hdrop]
  congr 1
  apply takeWhile_agree
  intro c hc
  by_cases hsp : c = ' '
  · subst hsp
    decide
  · have hw : c.isWhitespace = false := by
      cases hcw : c.isWhitespace with
      | false => rfl
      | true => exact absurd (h1 c hc hcw) hsp
    simp [hw, hsp]

/-! ## Facts about the concrete runs -/

set_option maxRecDepth 100000 in
theorem bracketUnit_text :
    unitFileText bracketUnit =
      "[Unit]\nDescription=[Unit]\n\n[Service]\nExecStart=/usr/bin/myapp\nRestart=always\nUser=root\nGroup=root\nWorkingDirectory=/\n\n[Install]\nWantedBy=multi-user.target\n" := by
  decide

theorem exampleArgs_required (i e : Option Bool) :
    allRequired { exampleArgs with install := i, enable := e } := by
  simp [allRequired, exampleArgs, flagString]

/-! ## The claims -/

/-- C1: for every unit configuration, `GenerateUnitFile` performs no effect,
does not exit, and returns exactly the template text with the values of
`Description`, `ExecStart`, `User`, `Group` and `WorkingDir` inserted as they
are. -/
theorem GenerateUnitFile_exact_text (unit : SystemdUnit) :
    GenerateUnitFile unit =
      ⟨[], .returned
        ("[Unit]\nDescription=" ++ unit.Description ++ "\n\n[Service]\nExecStart="
          ++ unit.ExecStart ++ "\nRestart=always\nUser=" ++ unit.User ++ "\nGroup="
          ++ unit.Group ++ "\nWorkingDirectory=" ++ unit.WorkingDir
          ++ "\n\n[Install]\nWantedBy=multi-user.target\n")⟩ :=
  GenerateUnitFile_eq unit

/-- C2 as stated fails: for the configuration whose description is `[Unit]`
the rendered text holds two occurrences of `[Unit]`. -/
theorem section_header_twice :
    GenerateUnitFile bracketUnit =
      ⟨[], .returned "[Unit]\nDescription=[Unit]\n\n[Service]\nExecStart=/usr/bin/myapp\nRestart=always\nUser=root\nGroup=root\nWorkingDirectory=/\n\n[Install]\nWantedBy=multi-user.target\n"⟩
    ∧ occurrences "[Unit]" "[Unit]\nDescription=[Unit]\n\n[Service]\nExecStart=/usr/bin/myapp\nRestart=always\nUser=root\nGroup=root\nWorkingDirectory=/\n\n[Install]\nWantedBy=multi-user.target\n" = 2 := by
  refine ⟨?_, ?_⟩
  · rw [GenerateUnitFile_eq, bracketUnit_text]
  · rw [← bracketUnit_text, occurrences_header_Unit]
    decide

/-- C2, amended: for every unit configuration the rendered text holds
`[Unit]`, `[Service]` and `[Install]` in that order and holds `Restart=always`
and `WantedBy=multi-user.target`; each header occurs once more than it occurs
inside the five rendered field values, hence exactly once when no field
value holds it. -/
theorem rendered_sections (unit : SystemdUnit) :
    ∃ text, GenerateUnitFile unit = ⟨[], .returned text⟩ ∧
      occurrences "[Unit]" text = 1 + fieldOccurrences "[Unit]" unit ∧
      occurrences "[Service]" text = 1 + fieldOccurrences "[Service]" unit ∧
      occurrences "[Install]" text = 1 + fieldOccurrences "[Install]" unit ∧
      (∃ a b c d : String,
        text = a ++ "[Unit]" ++ b ++ "[Service]" ++ c ++ "[Install]" ++ d) ∧
      containsText "Restart=always" text ∧
      containsText "WantedBy=multi-user.target" text :=
  ⟨unitFileText unit, GenerateUnitFile_eq unit, occurrences_header_Unit unit,
    occurrences_header_Service unit, occurrences_header_Install unit,
    unitFileText_sections unit, unitFileText_restart unit, unitFileText_wantedBy unit⟩

/-- C3: whenever one of the six values is empty after defaulting, whatever
the others, `main` prints one of the six messages and exits with status 1;
and `main` gets past the six checks, to the lookup of the executable, exactly
when all six values are non-empty. -/
theorem required_fields_checked (env : Env) (args : CommandLine) :
    ((flagString args.name "" = "" ∨ flagString args.description "" = "" ∨
        flagString args.exec "" = "" ∨ flagString args.user "root" = "" ∨
        flagString args.group "root" = "" ∨ flagString args.workdir "/" = "") →
      (main env args).status = 1 ∧
      ∃ msg ∈ requiredMessages, (main env args).trace = [.stdout (msg ++ "\n")]) ∧
    ((∃ t, (main env args).trace =
          .lookPath (beforeFirstSpace (flagString args.exec "")) :: t) ↔
      (flagString args.name "" ≠ "" ∧ flagString args.description "" ≠ "" ∧
        flagString args.exec "" ≠ "" ∧ flagString args.user "root" ≠ "" ∧
        flagString args.group "root" ≠ "" ∧ flagString args.workdir "/" ≠ "")) := by
  refine ⟨fun h => ?_, ⟨fun h => ?_, fun h => main_valid_head env args h⟩⟩
  · have hno : ¬ allRequired args := by
      unfold allRequired
      tauto
    obtain ⟨msg, hmem, hrun⟩ := main_missing env args hno
    exact ⟨by simp [hrun, Run.status], msg, hmem, by simp [hrun]⟩
  · by_contra hno
    obtain ⟨msg, _, hrun⟩ := main_missing env args hno
    obtain ⟨t, ht⟩ := h
    simp [hrun] at ht

/-- Witness of C3: the example with an empty `-user` value is rejected. -/
theorem required_fields_checked_witness :
    flagString ({ exampleArgs with user := some "" } : CommandLine).user "root" = "" ∧
    (main envAllOk { exampleArgs with user := some "" }).status = 1 ∧
    ∃ msg ∈ requiredMessages,
      (main envAllOk { exampleArgs with user := some "" }).trace = [.stdout (msg ++ "\n")] :=
  ⟨rfl, (required_fields_checked envAllOk { exampleArgs with user := some "" }).1
    (Or.inr (Or.inr (Or.inr (Or.inl rfl))))⟩

/-- C4 as stated fails: with the start command `/usr/bin/myapp<TAB>--flag`
`main` looks up the whole command, and with ` /usr/bin/myapp` (leading space)
it looks up the empty name, while the first whitespace-delimited token of
both is `/usr/bin/myapp`. -/
theorem lookup_is_not_first_whitespace_token :
    (flagString ({ exampleArgs with exec := some "/usr/bin/myapp\t--flag" } : CommandLine).exec ""
        ≠ "" ∧
      lookups (main envAllOk { exampleArgs with exec := some "/usr/bin/myapp\t--flag" }).trace
        = ["/usr/bin/myapp\t--flag"] ∧
      firstWhitespaceToken "/usr/bin/myapp\t--flag" = "/usr/bin/myapp") ∧
    (flagString ({ exampleArgs with exec := some " /usr/bin/myapp" } : CommandLine).exec "" ≠ "" ∧
      lookups (main envAllOk { exampleArgs with exec := some " /usr/bin/myapp" }).trace = [""] ∧
      firstWhitespaceToken " /usr/bin/myapp" = "/usr/bin/myapp") := by
  refine ⟨⟨by decide, ?_, by decide⟩, ⟨by decide, ?_, by decide⟩⟩
  · rw [main_valid_lookups _ _ (by simp [allRequired, exampleArgs, flagString])]
    decide
  · rw [main_valid_lookups _ _ (by simp [allRequired, exampleArgs, flagString])]
    decide

/-- C4, amended: for every run with six non-empty values, the one name `main`
looks up on the search path is the text of the start command before its first
space character (the whole command when it has no space); it is the first
whitespace-delimited token when the command does not start with a space and
has no whitespace character other than the space. -/
theorem lookup_is_text_before_first_space (env : Env) (args : CommandLine)
    (h : allRequired args) :
    lookups (main env args).trace =
      [String.mk ((flagString args.exec "").data.takeWhile (· != ' '))] ∧
    ((∀ c ∈ (flagString args.exec "").data, c.isWhitespace = true → c = ' ') →
      (flagString args.exec "").data.head? ≠ some ' ' →
      lookups (main env args).trace = [firstWhitespaceToken (flagString args.exec "")]) := by
  refine ⟨main_valid_lookups env args h, fun h1 h2 => ?_⟩
  rw [main_valid_lookups env args h, beforeFirstSpace_eq_token _ h1 h2]

/-- Witness of C4, amended: the example of the specification, whose start
command has a space as its only whitespace. -/
theorem lookup_is_text_before_first_space_witness :
    allRequired exampleArgs ∧
    lookups (main envAllOk exampleArgs).trace =
      [String.mk ((flagString exampleArgs.exec "").data.takeWhile (· != ' '))] ∧
    lookups (main envAllOk exampleArgs).trace =
      [firstWhitespaceToken (flagString exampleArgs.exec "")] :=
  ⟨exampleArgs_required none none,
    (lookup_is_text_before_first_space envAllOk exampleArgs
      (exampleArgs_required none none)).1,
    (lookup_is_text_before_first_space envAllOk exampleArgs
      (exampleArgs_required none none)).2 (by decide) (by decide)⟩

/-- C5 as stated fails: with the start command `/opt/x<TAB>--flag` and a
search path that resolves that whole name only, the first whitespace-delimited
token `/opt/x` is not resolved, yet `main` issues the file write, the file is
written, and the status is 0. -/
theorem unresolved_first_token_accepted :
    allRequired { exampleArgs with exec := some "/opt/x\t--flag" } ∧
    firstWhitespaceToken
      (flagString ({ exampleArgs with exec := some "/opt/x\t--flag" } : CommandLine).exec "")
      = "/opt/x" ∧
    envTabName.lookPath "/opt/x" = false ∧
    fileWrites (main envTabName { exampleArgs with exec := some "/opt/x\t--flag" }).trace ≠ [] ∧
    filesWritten envTabName
      (main envTabName { exampleArgs with exec := some "/opt/x\t--flag" }).trace ≠ [] ∧
    (main envTabName { exampleArgs with exec := some "/opt/x\t--flag" }).status = 0 := by
  have hr : allRequired { exampleArgs with exec := some "/opt/x\t--flag" } := by
    simp [allRequired, exampleArgs, flagString]
  have hv : validated envTabName { exampleArgs with exec := some "/opt/x\t--flag" } :=
    ⟨hr, by decide⟩
  refine ⟨hr, by decide, by decide, ?_, ?_, ?_⟩
  · rw [main_valid_fileWrites envTabName _ hv]
    simp
  · rw [main_valid_filesWritten envTabName _ hv]
    simp [envTabName]
  · exact main_valid_no_install envTabName _ hv rfl rfl

/-- C5, amended: when the six values are non-empty and the name `main` looks
up, the text of the start command before its first space, is not resolved,
`main` prints the error, exits with status 1, and has issued no file write
and started no subprocess; this covers every run whose first
whitespace-delimited token is not resolved when the command does not start
with a space and has no whitespace character other than the space. -/
theorem unresolved_executable_rejected (env : Env) (args : CommandLine)
    (h : allRequired args)
    (hl : env.lookPath (beforeFirstSpace (flagString args.exec "")) = false ∨
      ((∀ c ∈ (flagString args.exec "").data, c.isWhitespace = true → c = ' ') ∧
        (flagString args.exec "").data.head? ≠ some ' ' ∧
        env.lookPath (firstWhitespaceToken (flagString args.exec "")) = false)) :
    (main env args).status = 1 ∧
    fileWrites (main env args).trace = [] ∧
    filesWritten env (main env args).trace = [] ∧
    commands (main env args).trace = [] ∧
    main env args =
      ⟨[.lookPath (beforeFirstSpace (flagString args.exec "")),
        .stdout ("Error finding executable: " ++ beforeFirstSpace (flagString args.exec "")
          ++ "\n")], .exited 1⟩ := by
  have hl2 : env.lookPath (beforeFirstSpace (flagString args.exec "")) = false := by
    rcases hl with hl | ⟨h1, h2, h3⟩
    · exact hl
    · rw [beforeFirstSpace_eq_token _ h1 h2]
      exact h3
  have hrun := main_unresolved env args h hl2
  refine ⟨?_, ?_, ?_, ?_, hrun⟩ <;>
    simp [hrun, Run.status, fileWrites, filesWritten, commands]

/-- Witness of C5, amended: the example in an environment that finds no
executable, by either form of the hypothesis. -/
theorem unresolved_executable_rejected_witness :
    allRequired exampleArgs ∧
    envNoPath.lookPath (beforeFirstSpace (flagString exampleArgs.exec "")) = false ∧
    envNoPath.lookPath (firstWhitespaceToken (flagString exampleArgs.exec "")) = false ∧
    (main envNoPath exampleArgs).status = 1 ∧
    fileWrites (main envNoPath exampleArgs).trace = [] ∧
    commands (main envNoPath exampleArgs).trace = [] :=
  ⟨exampleArgs_required none none, rfl, rfl,
    (unresolved_executable_rejected envNoPath exampleArgs
      (exampleArgs_required none none) (Or.inl rfl)).1,
    (unresolved_executable_rejected envNoPath exampleArgs
      (exampleArgs_required none none) (Or.inr ⟨by decide, by decide, rfl⟩)).2.1,
    (unresolved_executable_rejected envNoPath exampleArgs
      (exampleArgs_required none none) (Or.inl rfl)).2.2.2.1⟩

/-- C7: when the description is empty (the flag omitted, or given empty) and
the name is not, `main` prints exactly `Description is required`, exits with
status 1, and writes no file and starts no subprocess; the other four values
play no part. -/
theorem description_required (env : Env) (args : CommandLine)
    (hn : flagString args.name "" ≠ "")
    (hd : args.description = none ∨ args.description = some "") :
    main env args = ⟨[.stdout "Description is required\n"], .exited 1⟩ ∧
    (main env args).status = 1 ∧
    fileWrites (main env args).trace = [] ∧
    commands (main env args).trace = [] := by
  have hd2 : flagString args.description "" = "" := by
    rcases hd with hd | hd <;> simp [flagString, hd]
  have hrun : main env args = ⟨[.stdout "Description is required\n"], .exited 1⟩ := by
    simp [main, required_nonempty _ _ hn, hd2, required_empty]
  refine ⟨hrun, ?_, ?_, ?_⟩ <;> simp [hrun, Run.status, fileWrites, commands]

/-- Witness of C7: the example with `-description` omitted. -/
theorem description_required_witness :
    flagString ({ exampleArgs with description := none } : CommandLine).name "" ≠ "" ∧
    main envAllOk { exampleArgs with description := none } =
      ⟨[.stdout "Description is required\n"], .exited 1⟩ :=
  ⟨by decide,
    (description_required envAllOk { exampleArgs with description := none } (by decide)
      (Or.inl rfl)).1⟩

/-- C8: in a run that passes validation and writes the file, with the
install flag set and the enable flag unset, the subprocesses started are the
copy, followed by the daemon reload when the copy succeeds; no enable and no
start command is started, whatever the outcomes. -/
theorem install_without_enable (env : Env) (args : CommandLine) (hv : validated env args)
    (hw : env.writeFile (unitFileNameOf args) (unitFileText (unitOf args)) 0o644 = none)
    (hi : flagBool args.install false = true) (he : flagBool args.enable false = false) :
    commands (main env args).trace =
      ["sudo", "cp", "/tmp/" ++ flagString args.name "" ++ ".service", "/etc/systemd/system/"] ::
        (if (env.run ["sudo", "cp", "/tmp/" ++ flagString args.name "" ++ ".service",
              "/etc/systemd/system/"]).err = none
          then [["sudo", "systemctl", "daemon-reload"]] else []) ∧
    (∀ file, enableArgv file ∉ commands (main env args).trace) ∧
    (∀ file, startArgv file ∉ commands (main env args).trace) := by
  have hc : commands (main env args).trace =
      ["sudo", "cp", "/tmp/" ++ flagString args.name "" ++ ".service", "/etc/systemd/system/"] ::
        (if (env.run ["sudo", "cp", "/tmp/" ++ flagString args.name "" ++ ".service",
              "/etc/systemd/system/"]).err = none
          then [["sudo", "systemctl", "daemon-reload"]] else []) := by
    rw [main_valid_commands env args hv hw, privilegedSteps_commands]
    cases h1 : (env.run ["sudo", "cp", "/tmp/" ++ flagString args.name "" ++ ".service",
      "/etc/systemd/system/"]).err <;>
      simp [hi, he, Env.ok, cpArgv, reloadArgv, unitFileNameOf, h1]
  refine ⟨hc, fun file => ?_, fun file => ?_⟩ <;>
    · rw [hc]
      split <;> simp [enableArgv, startArgv]

/-- Witness of C8: the example with `-install`, the copy failing. -/
theorem install_without_enable_witness :
    validated envCopyFails { exampleArgs with install := some true } ∧
    commands (main envCopyFails { exampleArgs with install := some true }).trace =
      [["sudo", "cp", "/tmp/myapp.service", "/etc/systemd/system/"]] :=
  ⟨⟨exampleArgs_required (some true) none, rfl⟩,
    (install_without_enable envCopyFails { exampleArgs with install := some true }
      ⟨exampleArgs_required (some true) none, rfl⟩ rfl rfl rfl).1⟩

/-- C9: in a run that passes validation and writes the file, with both flags
set, the subprocesses started are copy, daemon reload, enable, start, each
started only when all earlier ones succeeded and nothing else after a
failure; the status is 0 exactly when all four succeed and 1 otherwise; the
four argument vectors differ, so the environment can give the four commands
any outcomes. -/
theorem fail_stop_sequence (env : Env) (args : CommandLine) (hv : validated env args)
    (hw : env.writeFile (unitFileNameOf args) (unitFileText (unitOf args)) 0o644 = none)
    (hi : flagBool args.install false = true) (he : flagBool args.enable false = true) :
    commands (main env args).trace =
      cpArgv (unitFileNameOf args) ::
        (if env.ok (cpArgv (unitFileNameOf args)) then
          reloadArgv ::
            (if env.ok reloadArgv then
              enableArgv (unitFileNameOf args) ::
                (if env.ok (enableArgv (unitFileNameOf args)) then
                  [startArgv (unitFileNameOf args)]
                else [])
            else [])
        else []) ∧
    ((main env args).status = 0 ↔
      env.ok (cpArgv (unitFileNameOf args)) = true ∧ env.ok reloadArgv = true ∧
      env.ok (enableArgv (unitFileNameOf args)) = true ∧
      env.ok (startArgv (unitFileNameOf args)) = true) ∧
    ((main env args).status = 0 ∨ (main env args).status = 1) ∧
    [cpArgv (unitFileNameOf args), reloadArgv, enableArgv (unitFileNameOf args),
      startArgv (unitFileNameOf args)].Nodup := by
  have hend := main_valid_ending env args hv hw
  rw [privilegedSteps_ending] at hend
  refine ⟨?_, ?_, ?_, by simp [cpArgv, reloadArgv, enableArgv, startArgv]⟩
  · rw [main_valid_commands env args hv hw, privilegedSteps_commands]
    simp [hi, he]
  · unfold Run.status
    rw [hend]
    simp only [hi, he, true_implies]
    by_cases hall : env.ok (cpArgv (unitFileNameOf args)) = true ∧ env.ok reloadArgv = true ∧
        env.ok (enableArgv (unitFileNameOf args)) = true ∧
        env.ok (startArgv (unitFileNameOf args)) = true
    · simp [if_pos hall, hall]
    · simp [if_neg hall, hall]
  · unfold Run.status
    rw [hend]
    split_ifs <;> simp

/-- Witness of C9: the example with both flags, the enable command failing:
copy, reload and enable are started, start is not, and the status is 1. -/
theorem fail_stop_sequence_witness :
    validated envEnableFails { exampleArgs with install := some true, enable := some true } ∧
    commands
        (main envEnableFails
          { exampleArgs with install := some true, enable := some true }).trace =
      [["sudo", "cp", "/tmp/myapp.service", "/etc/systemd/system/"],
       ["sudo", "systemctl", "daemon-reload"],
       ["sudo", "systemctl", "enable", "/tmp/myapp.service"]] :=
  ⟨⟨exampleArgs_required (some true) (some true), rfl⟩,
    (fail_stop_sequence envEnableFails
      { exampleArgs with install := some true, enable := some true }
      ⟨exampleArgs_required (some true) (some true), rfl⟩ rfl rfl rfl).1⟩

/-- C10 as stated fails: a validated run with `-enable` alone whose file
write fails ends with status 1, not 0. -/
theorem enable_alone_write_failure :
    validated envWriteFails { exampleArgs with enable := some true } ∧
    flagBool ({ exampleArgs with enable := some true } : CommandLine).install false = false ∧
    (main envWriteFails { exampleArgs with enable := some true }).status = 1 := by
  refine ⟨⟨exampleArgs_required none (some true), rfl⟩, rfl, ?_⟩
  rw [main_valid envWriteFails { exampleArgs with enable := some true }
    (exampleArgs_required none (some true))]
  rfl

/-- C10, amended: in a run that passes validation with the install flag
unset no subprocess is started, whatever the enable flag; the run is the same
as with any other value of the enable flag; it issues one file write and ends
with status 0 when the write succeeds and 1 when it fails. -/
theorem enable_needs_install (env : Env) (args : CommandLine) (hv : validated env args)
    (hi : flagBool args.install false = false) :
    commands (main env args).trace = [] ∧
    (∀ e : Option Bool, main env { args with enable := e } = main env args) ∧
    fileWrites (main env args).trace =
      [("/tmp/" ++ flagString args.name "" ++ ".service", unitFileText (unitOf args))] ∧
    (main env args).status =
      if env.writeFile ("/tmp/" ++ flagString args.name "" ++ ".service")
          (unitFileText (unitOf args)) 0o644 = none then 0 else 1 := by
  refine ⟨?_, fun e => main_install_unset env args hi e, main_valid_fileWrites env args hv, ?_⟩
  · rw [main_valid env args hv.1]
    cases hw : env.writeFile (unitFileNameOf args) (unitFileText (unitOf args)) 0o644 <;>
      simp [hv.2, commands, privilegedSteps, hi, Run.ret]
  · rw [main_valid env args hv.1]
    cases hw : env.writeFile (unitFileNameOf args) (unitFileText (unitOf args)) 0o644 <;>
      simp only [unitFileNameOf] at hw <;>
      simp [hv.2, hw, Run.status, privilegedSteps, hi, Run.ret, unitFileNameOf]

/-- Witness of C10, amended: the example with `-enable` alone. -/
theorem enable_needs_install_witness :
    validated envAllOk { exampleArgs with enable := some true } ∧
    flagBool ({ exampleArgs with enable := some true } : CommandLine).install false = false ∧
    commands (main envAllOk { exampleArgs with enable := some true }).trace = [] :=
  ⟨⟨exampleArgs_required none (some true), rfl⟩, rfl,
    (enable_needs_install envAllOk { exampleArgs with enable := some true }
      ⟨exampleArgs_required none (some true), rfl⟩ rfl).1⟩

end Systemdgen
